import Mathlib

/-!
Verification of the PM Internship Recommendation System (sih_2025).

The repository sources contain the React frontend: the candidate form with
its validation and submission logic (frontend/src/App.jsx) and the
Recommendations page with its rendering, filtering, dropdown and badge
logic.  The Python backend — TF-IDF vector space, similarity scorer,
skill-gap analyzer, recommendation ranker, analytics aggregator — is not
present in the sources; those components are modelled from the
specification, as marked on each such definition.
-/

namespace SIH

/-! ### Frontend form data and validation (frontend/src/App.jsx) -/

/-- The formData state object of the App component: exactly six string
fields. -/
structure FormData where
  skills : String
  education_level : String
  sector_interest : String
  location_preference : String
  experience : String
  aspirations : String
deriving DecidableEq, Repr

/-- Whitespace as JavaScript String.prototype.trim strips it (restricted
to the ASCII whitespace characters that can occur in the form fields). -/
def isWsChar (c : Char) : Bool :=
  c == ' ' || c == '\t' || c == '\n' || c == '\r'

/-- JavaScript String.prototype.trim: strip leading and trailing
whitespace. -/
def jsTrim (s : String) : String :=
  String.mk (((s.data.dropWhile isWsChar).reverse.dropWhile isWsChar).reverse)

/-- A required form field fails validation when it is falsy (the empty
string) or trims to the empty string (validateForm in App.jsx). -/
def isBlank (s : String) : Bool := s == "" || jsTrim s == ""

/-- The keys of the validation object built by validateForm in App.jsx: one
key per blank required field, plus the additional skills check (a truthy
skills value shorter than 2 characters also flags the skills key). -/
def validationKeys (f : FormData) : List String :=
  let v1 : List String := if isBlank f.skills then ["skills"] else []
  let v2 := if isBlank f.education_level then v1 ++ ["education_level"] else v1
  let v3 := if isBlank f.sector_interest then v2 ++ ["sector_interest"] else v2
  let v4 := if isBlank f.location_preference then v3 ++ ["location_preference"] else v3
  if f.skills ≠ "" ∧ f.skills.length < 2 then v4.insert "skills" else v4

/-- validateForm returns true when the validation object has no keys. -/
def validateForm (f : FormData) : Bool := (validationKeys f).isEmpty

/-- The outcome of handleSubmit as far as the request is concerned. -/
inductive SubmitAction where
  | rejected
  | forwarded
deriving DecidableEq, Repr

/-- handleSubmit (App.jsx): a submission failing validateForm is rejected
with a validation error message and never posted; otherwise the payload is
posted to the recommendations endpoint. -/
def handleSubmit (f : FormData) : SubmitAction :=
  if validateForm f then .forwarded else .rejected

/-- The request payload built by handleSubmit: the object spread of
formData, hence exactly its six string fields in declaration order. -/
def payload (f : FormData) : List (String × String) :=
  [("skills", f.skills), ("education_level", f.education_level),
   ("sector_interest", f.sector_interest),
   ("location_preference", f.location_preference),
   ("experience", f.experience), ("aspirations", f.aspirations)]

/-- The kind of input control a form field is rendered with. -/
inductive FieldType where
  | select
  | text
deriving DecidableEq, Repr

/-- The form fields as rendered by renderForm in App.jsx, in page order,
each with the control type passed to renderFormField. -/
def formFieldTypes : List (String × FieldType) :=
  [("skills", .select), ("aspirations", .text), ("education_level", .select),
   ("sector_interest", .select), ("location_preference", .select),
   ("experience", .text)]

/-! ### Recommendations page: badges (Recommendations component) -/

/-- getConfidenceColor from the Recommendations component. -/
def getConfidenceColor (confidence : ℤ) : String :=
  if confidence ≥ 80 then "var(--success-500)"
  else if confidence ≥ 60 then "var(--warning-500)"
  else "var(--error-500)"

/-- getConfidenceLabel from the Recommendations component. -/
def getConfidenceLabel (confidence : ℤ) : String :=
  if confidence ≥ 80 then "Excellent Match"
  else if confidence ≥ 60 then "Good Match"
  else "Potential Match"

/-! ### Recommendations page: browse-table filtering -/

/-- Whether the second character list occurs at the start of the first. -/
def charsStartWith : List Char → List Char → Bool
  | _, [] => true
  | [], _ :: _ => false
  | a :: s, b :: t => a == b && charsStartWith s t

/-- Substring containment on character lists, as JavaScript
String.prototype.includes computes it. -/
def charsInclude : List Char → List Char → Bool
  | [], sub => sub.isEmpty
  | a :: s, sub => charsStartWith (a :: s) sub || charsInclude s sub

/-- s.includes(sub) on strings. -/
def strIncludes (s sub : String) : Bool := charsInclude s.data sub.data

/-- A browse-table entry as the Recommendations component consumes it; the
fields reached through optional chaining may be absent. -/
structure BrowseEntry where
  id : ℤ
  company : Option String
  role : Option String
  location : Option String
  industry : Option String
  required_skills : Option String
deriving DecidableEq, Repr

/-- field?.toLowerCase().includes(t): an absent field makes the whole
optional chain undefined, hence falsy. -/
def optFieldIncludes (field : Option String) (t : String) : Bool :=
  match field with
  | some v => strIncludes v.toLower t
  | none => false

/-- The sector clause of the filteredBrowseTable predicate. -/
def matchesSector (filterSector : String) (i : BrowseEntry) : Bool :=
  filterSector == "" || optFieldIncludes i.industry filterSector.toLower

/-- The location clause of the filteredBrowseTable predicate. -/
def matchesLocation (filterLocation : String) (i : BrowseEntry) : Bool :=
  filterLocation == "" || optFieldIncludes i.location filterLocation.toLower

/-- The search clause of the filteredBrowseTable predicate: role, company or
required_skills must contain the term. -/
def matchesSearch (searchTerm : String) (i : BrowseEntry) : Bool :=
  searchTerm == "" || optFieldIncludes i.role searchTerm.toLower
    || optFieldIncludes i.company searchTerm.toLower
    || optFieldIncludes i.required_skills searchTerm.toLower

/-- filteredBrowseTable from the Recommendations component. -/
def filteredBrowseTable (browseTable : List BrowseEntry)
    (filterSector filterLocation searchTerm : String) : List BrowseEntry :=
  browseTable.filter fun i =>
    matchesSector filterSector i && matchesLocation filterLocation i
      && matchesSearch searchTerm i

/-! ### Recommendations page: dropdown options -/

/-- JavaScript [...new Set(xs)]: deduplication keeping the first occurrence
of each value, in encounter order.  The first argument accumulates the
values already emitted. -/
def jsSetDedup {α : Type} [DecidableEq α] : List α → List α → List α
  | _, [] => []
  | seen, x :: xs =>
    if x ∈ seen then jsSetDedup seen xs else x :: jsSetDedup (x :: seen) xs

/-- The industry dropdown options: [...new Set(browseTable.map(i =>
i.industry))]. -/
def industryOptions (browseTable : List BrowseEntry) : List (Option String) :=
  jsSetDedup [] (browseTable.map (·.industry))

/-- The location dropdown options: [...new Set(browseTable.map(i =>
i.location))]. -/
def locationOptions (browseTable : List BrowseEntry) : List (Option String) :=
  jsSetDedup [] (browseTable.map (·.location))

/-! ### Frontend health gating and error mapping (App.jsx) -/

/-- The engine_status object of the health payload. -/
structure EngineStatus where
  initialized : Bool
deriving DecidableEq, Repr

/-- The health payload returned by the health endpoint. -/
structure HealthData where
  status : String
  engine_status : Option EngineStatus
deriving DecidableEq, Repr

/-- systemHealth?.engine_status?.initialized under JavaScript truthiness. -/
def engineInitialized (systemHealth : Option HealthData) : Bool :=
  match systemHealth with
  | some h =>
    match h.engine_status with
    | some e => e.initialized
    | none => false
  | none => false

/-- disabled={loading || !systemHealth?.engine_status?.initialized} on the
submit button in renderForm. -/
def submitDisabled (loading : Bool) (systemHealth : Option HealthData) : Bool :=
  loading || !(engineInitialized (systemHealth))

/-- checkSystemHealth: the error banner set when the engine reports it is
not initialized. -/
def healthCheckError (health : HealthData) : String :=
  if engineInitialized (some health) then ""
  else "System is initializing. Please wait a moment and try again."

/-- The shape of an axios error as the catch branch of handleSubmit reads
it: err.code, err.response?.status, err.response?.data?.error and
err.message. -/
structure AxiosError where
  code : Option String
  status : Option ℕ
  responseError : Option String
  message : String
deriving DecidableEq, Repr

/-- The error-message selection in the catch branch of handleSubmit. -/
def errorMessageFor (err : AxiosError) : String :=
  if err.code == some "ECONNABORTED" then
    "Request timed out. The server might be busy. Please try again."
  else if err.status == some 503 then
    "Service temporarily unavailable. Please wait a moment and try again."
  else
    match err.responseError with
    | some msg => msg
    | none =>
      if strIncludes err.message "Network Error" then
        "Unable to connect to the server. Please check your connection and ensure the backend is running."
      else "An unexpected error occurred. Please try again."

/-! ### Backend scoring core, modelled from the spec

The following definitions carry doc comments starting with `Modelled from
the spec:` — the backend implementation is not among the repository
sources, so they follow the specification text. -/

/-- Modelled from the spec: the dot product of two vectors of the frozen
vocabulary dimensionality, as the SimilarityScorer computes it over the
already L2-normalized query and posting vectors. -/
def dotQ (n : ℕ) (q p : Fin n → ℚ) : ℚ := ∑ i, q i * p i

/-- Modelled from the spec: the squared L2 norm of a vector; the
VectorSpaceModel transform returns vectors with squared norm 1, or the
all-zero vector when no vocabulary term occurs. -/
def sumSq (n : ℕ) (v : Fin n → ℚ) : ℚ := ∑ i, v i ^ 2

/-- Modelled from the spec: cosine similarity of the L2-normalized query
and posting vectors; defined as 0 when either vector is all-zero, so that
no division by zero ever occurs. -/
def cosineSimilarity (n : ℕ) (q p : Fin n → ℚ) : ℚ :=
  if (∀ i, q i = 0) ∨ (∀ i, p i = 0) then 0 else dotQ n q p

/-- The four score_breakdown components, each normalized to [0,1]. -/
structure ScoreBreakdown where
  skills_match : ℚ
  industry_match : ℚ
  location_match : ℚ
  education_compatibility : ℚ
deriving DecidableEq, Repr

/-- Clamping to the unit interval. -/
def clamp01 (x : ℚ) : ℚ := max 0 (min 1 x)

/-- Modelled from the spec: the composite raw score — the weighted sum of
the four breakdown components with the default weights skills 0.5,
industry 0.2, location 0.2, education 0.1, clamped to [0,1]. -/
def compositeScore (b : ScoreBreakdown) : ℚ :=
  clamp01 (1/2 * b.skills_match + 1/5 * b.industry_match
    + 1/5 * b.location_match + 1/10 * b.education_compatibility)

/-- Modelled from the spec: confidence_score = round(composite × 100). -/
def confidenceScore (b : ScoreBreakdown) : ℤ :=
  round (compositeScore b * 100)

/-! ### Skill-gap analysis, modelled from the spec -/

/-- Modelled from the spec: the TextNormalizer reduction of one skill
string to its lowercase alphanumeric comparison token. -/
def normSkill (s : String) : String :=
  String.mk ((s.data.filter fun c => c.isAlpha || c.isDigit).map Char.toLower)

/-- The skills_analysis record of a recommendation. -/
structure SkillsAnalysis where
  matching_skills : List String
  missing_skills : List String
  match_percentage : ℚ
deriving DecidableEq, Repr

/-- Modelled from the spec: SkillGapAnalyzer.analyze — the required skills
whose normalized token lies in the candidate token set, in original
posting order and casing; the required skills whose token does not; and
the ratio of matches over required skills, 0 when none are required. -/
def analyze (candidateSkills : List String) (requiredSkills : List String) :
    SkillsAnalysis :=
  { matching_skills :=
      requiredSkills.filter fun s => candidateSkills.contains (normSkill s)
    missing_skills :=
      requiredSkills.filter fun s => !(candidateSkills.contains (normSkill s))
    match_percentage :=
      if requiredSkills.isEmpty then 0
      else ((requiredSkills.filter fun s =>
          candidateSkills.contains (normSkill s)).length : ℚ)
        / (requiredSkills.length : ℚ) }

/-! ### Ranking and analytics, modelled from the spec -/

/-- A ranked recommendation restricted to the ranking keys the
RecommendationRanker sorts by: posting id and integer confidence score.
Modelled from the spec. -/
structure RecResult where
  id : ℤ
  confidence_score : ℤ
deriving DecidableEq, Repr

/-- Modelled from the spec: the ranking order — confidence_score
descending, ties broken by posting id ascending. -/
def rankle (a b : RecResult) : Prop :=
  b.confidence_score < a.confidence_score ∨
    (a.confidence_score = b.confidence_score ∧ a.id ≤ b.id)

instance : DecidableRel rankle := fun a b => by
  unfold rankle; infer_instance

instance : IsTotal RecResult rankle :=
  ⟨fun a b => by unfold rankle; omega⟩

instance : IsTrans RecResult rankle :=
  ⟨fun a b c hab hbc => by unfold rankle at hab hbc ⊢; omega⟩

instance : IsAntisymm RecResult rankle :=
  ⟨fun a b hab hba => by
    unfold rankle at hab hba
    have h1 : a.confidence_score = b.confidence_score := by omega
    have h2 : a.id = b.id := by omega
    cases a; cases b; simp_all⟩

/-- Modelled from the spec: the RecommendationRanker — sort the per-posting
results by the ranking order and truncate to top-N. -/
def rankRecommendations (results : List RecResult) (topN : ℕ) : List RecResult :=
  (List.insertionSort rankle results).take topN

/-- Modelled from the spec: the per-request pipeline — score every posting
of the catalog, then rank and truncate. -/
def recommend {α : Type} (score : α → RecResult) (catalog : List α)
    (topN : ℕ) : List RecResult :=
  rankRecommendations (catalog.map score) topN

/-- The analytics summary the AnalyticsAggregator produces. -/
structure Analytics where
  total_recommendations : ℕ
  avg_confidence : ℤ
  top_match_score : ℤ
deriving DecidableEq, Repr

/-- Modelled from the spec: the AnalyticsAggregator — count, mean
confidence rounded to the nearest integer (0 on an empty list), and the
confidence of the first entry (0 on an empty list). -/
def aggregate (results : List RecResult) : Analytics :=
  { total_recommendations := results.length
    avg_confidence :=
      if results.isEmpty then 0
      else round ((((results.map (·.confidence_score)).sum : ℤ) : ℚ)
        / (results.length : ℚ))
    top_match_score :=
      match results with
      | [] => 0
      | r :: _ => r.confidence_score }

/-! ### Recommendations page: render path, and the modelled endpoint -/

/-- The three mutually exclusive render outcomes of the Recommendations
component once loading has finished. -/
inductive RenderPath where
  | errorPage
  | noRecommendations
  | recommendationsGrid
deriving DecidableEq, Repr

/-- The Recommendations component after loading: a non-empty error renders
the error page; otherwise an empty list renders the no-recommendations
block and a non-empty list renders the grid of cards. -/
def recommendationsRender (error : String) (recommendations : List RecResult) :
    RenderPath :=
  if error ≠ "" then .errorPage
  else if recommendations.length = 0 then .noRecommendations
  else .recommendationsGrid

/-- The response of the recommendations endpoint as the frontend observes
it. -/
inductive EndpointResponse where
  | serviceUnavailable
  | ok (results : List RecResult)
deriving DecidableEq, Repr

/-- Modelled from the spec: the recommendations endpoint raises
EngineNotInitializedError, surfaced as an HTTP 503 service-unavailable
response, while the VectorSpaceModel has not completed fit; once
initialized it computes and returns the results. -/
def recommendationsEndpoint (initialized : Bool)
    (results : List RecResult) : EndpointResponse :=
  if initialized then .ok results else .serviceUnavailable

/-! ## Theorems -/

/-- Claim C9: for every rendered recommendation the badge label and color
are determined solely by confidence_score with the fixed thresholds —
Excellent Match with the success color exactly when confidence ≥ 80, Good
Match with the warning color exactly when 60 ≤ confidence < 80, Potential
Match with the error color otherwise. -/
theorem C9_confidence_badge (c : ℤ) :
    ((getConfidenceLabel c = "Excellent Match" ∧
        getConfidenceColor c = "var(--success-500)") ↔ 80 ≤ c) ∧
    ((getConfidenceLabel c = "Good Match" ∧
        getConfidenceColor c = "var(--warning-500)") ↔ (60 ≤ c ∧ c < 80)) ∧
    ((getConfidenceLabel c = "Potential Match" ∧
        getConfidenceColor c = "var(--error-500)") ↔ c < 60) := by
  unfold getConfidenceLabel getConfidenceColor
  split_ifs with h1 h2 <;> refine ⟨?_, ?_, ?_⟩ <;> simp <;> omega

/-- The validation object is empty exactly when every required field is
non-blank and the additional skills-length check passes. -/
theorem validationKeys_isEmpty_iff (f : FormData) :
    (validationKeys f).isEmpty = true ↔
      ¬(isBlank f.skills = true ∨ isBlank f.education_level = true ∨
        isBlank f.sector_interest = true ∨
        isBlank f.location_preference = true ∨
        (f.skills ≠ "" ∧ f.skills.length < 2)) := by
  unfold validationKeys
  split_ifs <;> simp_all [List.insert]

/-- Claim C4, counterexample: the single-character skill "C" leaves every
required field non-blank after trimming, yet the submission is rejected,
because validateForm additionally requires a truthy skills value to have
at least 2 characters. -/
theorem C4_counterexample :
    ¬ ((handleSubmit ⟨"C", "Graduate", "Technology", "Mumbai", "", ""⟩ =
          SubmitAction.rejected) ↔
        (isBlank "C" = true ∨ isBlank "Graduate" = true ∨
         isBlank "Technology" = true ∨ isBlank "Mumbai" = true)) := by
  decide

/-- Claim C4 (amended): a submission is rejected with a validation error if
and only if some required field (skills, education_level, sector_interest,
location_preference) is missing or trims to empty, or skills is non-empty
but shorter than 2 characters; otherwise it is accepted and forwarded. -/
theorem C4_validation (f : FormData) :
    (handleSubmit f = SubmitAction.rejected ↔
      (isBlank f.skills = true ∨ isBlank f.education_level = true ∨
       isBlank f.sector_interest = true ∨
       isBlank f.location_preference = true ∨
       (f.skills ≠ "" ∧ f.skills.length < 2))) ∧
    (handleSubmit f = SubmitAction.forwarded ↔
      ¬(isBlank f.skills = true ∨ isBlank f.education_level = true ∨
        isBlank f.sector_interest = true ∨
        isBlank f.location_preference = true ∨
        (f.skills ≠ "" ∧ f.skills.length < 2))) := by
  have h := validationKeys_isEmpty_iff f
  unfold handleSubmit validateForm
  cases hb : (validationKeys f).isEmpty <;> rw [hb] at h
  · simp_all
    cases h1 : isBlank f.skills <;> cases h2 : isBlank f.education_level <;>
      cases h3 : isBlank f.sector_interest <;>
      cases h4 : isBlank f.location_preference <;> simp_all
  · simp_all

/-- The sector clause holds exactly when the filter is empty or the entry
has an industry containing the filter case-insensitively. -/
theorem matchesSector_iff (fs : String) (i : BrowseEntry) :
    matchesSector fs i = true ↔
      fs = "" ∨ ∃ v, i.industry = some v ∧
        strIncludes v.toLower fs.toLower = true := by
  unfold matchesSector optFieldIncludes
  cases hind : i.industry <;> simp

/-- The location clause holds exactly when the filter is empty or the entry
has a location containing the filter case-insensitively. -/
theorem matchesLocation_iff (fl : String) (i : BrowseEntry) :
    matchesLocation fl i = true ↔
      fl = "" ∨ ∃ v, i.location = some v ∧
        strIncludes v.toLower fl.toLower = true := by
  unfold matchesLocation optFieldIncludes
  cases hloc : i.location <;> simp

/-- The search clause holds exactly when the term is empty or the entry has
a role, company or required_skills value containing it case-insensitively. -/
theorem matchesSearch_iff (st : String) (i : BrowseEntry) :
    matchesSearch st i = true ↔
      st = "" ∨
        (∃ v, i.role = some v ∧ strIncludes v.toLower st.toLower = true) ∨
        (∃ v, i.company = some v ∧ strIncludes v.toLower st.toLower = true) ∨
        (∃ v, i.required_skills = some v ∧
          strIncludes v.toLower st.toLower = true) := by
  unfold matchesSearch optFieldIncludes
  cases hr : i.role <;> cases hc : i.company <;>
    cases hk : i.required_skills <;> simp [or_assoc]

/-- Claim C10: an entry appears in the filtered browse list exactly when
each active filter matches case-insensitively by substring containment —
sector against industry, location against location, search term against
role, company or required_skills — where an empty filter passes every
entry and a missing field fails any non-empty filter; the filtered list is
a sublist of the original, so the original order is preserved. -/
theorem C10_filtered_browse_table (browseTable : List BrowseEntry)
    (filterSector filterLocation searchTerm : String) :
    (∀ i, i ∈ filteredBrowseTable browseTable filterSector filterLocation
          searchTerm ↔
        i ∈ browseTable ∧
        (filterSector = "" ∨ ∃ v, i.industry = some v ∧
          strIncludes v.toLower filterSector.toLower = true) ∧
        (filterLocation = "" ∨ ∃ v, i.location = some v ∧
          strIncludes v.toLower filterLocation.toLower = true) ∧
        (searchTerm = "" ∨
          (∃ v, i.role = some v ∧
            strIncludes v.toLower searchTerm.toLower = true) ∨
          (∃ v, i.company = some v ∧
            strIncludes v.toLower searchTerm.toLower = true) ∨
          (∃ v, i.required_skills = some v ∧
            strIncludes v.toLower searchTerm.toLower = true))) ∧
    (filteredBrowseTable browseTable filterSector filterLocation
        searchTerm).Sublist browseTable := by
  constructor
  · intro i
    rw [filteredBrowseTable, List.mem_filter, Bool.and_eq_true, Bool.and_eq_true,
      matchesSector_iff, matchesLocation_iff, matchesSearch_iff]
    simp only [and_assoc]
  · exact List.filter_sublist _

/-- Membership in the JavaScript-Set deduplication: exactly the values of
the input not already emitted. -/
theorem jsSetDedup_mem {α : Type} [DecidableEq α] (seen l : List α) (x : α) :
    x ∈ jsSetDedup seen l ↔ x ∈ l ∧ x ∉ seen := by
  induction l generalizing seen with
  | nil => simp [jsSetDedup]
  | cons a t ih =>
    by_cases ha : a ∈ seen
    · rw [jsSetDedup, if_pos ha, ih]
      constructor
      · exact fun ⟨hx, hs⟩ => ⟨List.mem_cons_of_mem a hx, hs⟩
      · rintro ⟨hx, hs⟩
        rcases List.mem_cons.mp hx with rfl | hx
        · exact absurd ha hs
        · exact ⟨hx, hs⟩
    · rw [jsSetDedup, if_neg ha]
      constructor
      · intro hx
        rcases List.mem_cons.mp hx with rfl | hx
        · exact ⟨List.mem_cons_self x t, ha⟩
        · obtain ⟨ht, hs⟩ := (ih (a :: seen)).mp hx
          exact ⟨List.mem_cons_of_mem a ht,
            fun hmem => hs (List.mem_cons_of_mem a hmem)⟩
      · rintro ⟨hx, hs⟩
        rcases List.mem_cons.mp hx with rfl | hx
        · exact List.mem_cons_self x _
        · by_cases hxa : x = a
          · subst hxa; exact List.mem_cons_self x _
          · exact List.mem_cons_of_mem a ((ih (a :: seen)).mpr
              ⟨hx, by simp [hxa, hs]⟩)

/-- The JavaScript-Set deduplication never emits a value twice. -/
theorem jsSetDedup_nodup {α : Type} [DecidableEq α] (seen l : List α) :
    (jsSetDedup seen l).Nodup := by
  induction l generalizing seen with
  | nil => simp [jsSetDedup]
  | cons a t ih =>
    by_cases ha : a ∈ seen
    · rw [jsSetDedup, if_pos ha]; exact ih seen
    · rw [jsSetDedup, if_neg ha]
      refine List.nodup_cons.mpr ⟨?_, ih (a :: seen)⟩
      intro hmem
      exact ((jsSetDedup_mem (a :: seen) t a).mp hmem).2 (List.mem_cons_self a seen)

/-- Claim C7: the industry and location dropdowns are simple deduplications
of the browse table — every value occurring in the table occurs in the
corresponding dropdown, every dropdown value occurs in the table, and no
dropdown lists a value more than once. -/
theorem C7_dropdown_options (browseTable : List BrowseEntry) :
    (∀ i ∈ browseTable, i.industry ∈ industryOptions browseTable ∧
        i.location ∈ locationOptions browseTable) ∧
    (∀ v ∈ industryOptions browseTable, ∃ i ∈ browseTable, i.industry = v) ∧
    (∀ v ∈ locationOptions browseTable, ∃ i ∈ browseTable, i.location = v) ∧
    (industryOptions browseTable).Nodup ∧
    (locationOptions browseTable).Nodup := by
  refine ⟨fun i hi => ⟨?_, ?_⟩, fun v hv => ?_, fun v hv => ?_,
    jsSetDedup_nodup _ _, jsSetDedup_nodup _ _⟩
  · exact (jsSetDedup_mem [] _ _).mpr
      ⟨List.mem_map_of_mem (·.industry) hi, List.not_mem_nil _⟩
  · exact (jsSetDedup_mem [] _ _).mpr
      ⟨List.mem_map_of_mem (·.location) hi, List.not_mem_nil _⟩
  · obtain ⟨i, hi, hv⟩ :=
      List.mem_map.mp ((jsSetDedup_mem [] _ _).mp hv).1
    exact ⟨i, hi, hv⟩
  · obtain ⟨i, hi, hv⟩ :=
      List.mem_map.mp ((jsSetDedup_mem [] _ _).mp hv).1
    exact ⟨i, hi, hv⟩

/-- Claim C8: the request payload handleSubmit posts consists of exactly
the six string fields skills, education_level, sector_interest,
location_preference, experience, aspirations, each carrying the
corresponding form value; the skills field is rendered as a single-select
control in the UI. -/
theorem C8_payload_fields (f : FormData) :
    (payload f).map Prod.fst =
      ["skills", "education_level", "sector_interest",
       "location_preference", "experience", "aspirations"] ∧
    (payload f).lookup "skills" = some f.skills ∧
    (payload f).lookup "education_level" = some f.education_level ∧
    (payload f).lookup "sector_interest" = some f.sector_interest ∧
    (payload f).lookup "location_preference" = some f.location_preference ∧
    (payload f).lookup "experience" = some f.experience ∧
    (payload f).lookup "aspirations" = some f.aspirations ∧
    formFieldTypes.lookup "skills" = some FieldType.select := by
  refine ⟨rfl, ?_, ?_, ?_, ?_, ?_, ?_, ?_⟩ <;>
    simp [payload, formFieldTypes, List.lookup]

/-- Claim C5: with an empty catalog the pipeline returns the empty result
list, the analytics report total_recommendations = 0 and avg_confidence =
0, and the Recommendations page takes the no-recommendations render path
rather than the error path; every function involved is total, so no
exception arises. -/
theorem C5_empty_catalog {α : Type} (score : α → RecResult) (topN : ℕ) :
    recommend score [] topN = [] ∧
    (aggregate (recommend score [] topN)).total_recommendations = 0 ∧
    (aggregate (recommend score [] topN)).avg_confidence = 0 ∧
    recommendationsRender "" (recommend score [] topN) =
      RenderPath.noRecommendations := by
  have h : recommend score [] topN = [] := by
    simp [recommend, rankRecommendations, List.insertionSort]
  refine ⟨h, ?_, ?_, ?_⟩ <;> rw [h] <;> rfl

/-- Claim C6: while the engine has not completed fit, the modelled
endpoint answers service-unavailable instead of computing recommendations;
on the frontend the submit button is disabled until the engine reports
initialized, the health check surfaces a wait-and-retry banner, and a 503
response is mapped to a temporary wait-and-retry error message. -/
theorem C6_engine_not_initialized (loading : Bool) (h : HealthData)
    (results : List RecResult) (e : AxiosError)
    (hinit : engineInitialized (some h) = false)
    (hcode : e.code ≠ some "ECONNABORTED") (hstatus : e.status = some 503) :
    recommendationsEndpoint false results =
      EndpointResponse.serviceUnavailable ∧
    submitDisabled loading (some h) = true ∧
    healthCheckError h =
      "System is initializing. Please wait a moment and try again." ∧
    errorMessageFor e =
      "Service temporarily unavailable. Please wait a moment and try again." := by
  refine ⟨rfl, ?_, ?_, ?_⟩
  · simp [submitDisabled, hinit]
  · simp [healthCheckError, hinit]
  · have h1 : (e.code == some "ECONNABORTED") = false := by
      cases hc : e.code <;> simp_all
    have h2 : (e.status == some 503) = true := by simp [hstatus]
    simp [errorMessageFor, h1, h2]

/-- Claim C6, witness: a concrete uninitialized health payload and a
concrete 503 axios error exercise the theorem. -/
theorem C6_engine_not_initialized_witness :
    recommendationsEndpoint false [] =
      EndpointResponse.serviceUnavailable ∧
    submitDisabled false (some ⟨"degraded", some ⟨false⟩⟩) = true ∧
    healthCheckError ⟨"degraded", some ⟨false⟩⟩ =
      "System is initializing. Please wait a moment and try again." ∧
    errorMessageFor ⟨none, some 503, none, "Request failed with status code 503"⟩ =
      "Service temporarily unavailable. Please wait a moment and try again." :=
  C6_engine_not_initialized false ⟨"degraded", some ⟨false⟩⟩ []
    ⟨none, some 503, none, "Request failed with status code 503"⟩
    rfl (by decide) rfl

/-- Claim C2: the skill-gap analysis splits the required skills into
matching and missing — together they are a permutation of the required
list (each required skill appears exactly once across the two lists, and
their union as sets is exactly the required set), their normalized token
sets are disjoint, and match_percentage is the matching ratio when skills
are required and 0 otherwise. -/
theorem C2_skill_gap (cand req : List String) :
    ((analyze cand req).matching_skills ++
        (analyze cand req).missing_skills).Perm req ∧
    (∀ s ∈ (analyze cand req).matching_skills,
      ∀ t ∈ (analyze cand req).missing_skills, normSkill s ≠ normSkill t) ∧
    ((analyze cand req).match_percentage =
      if req = [] then 0
      else ((analyze cand req).matching_skills.length : ℚ) / (req.length : ℚ)) := by
  refine ⟨List.filter_append_perm _ req, ?_, ?_⟩
  · intro s hs t ht heq
    have hs' := (List.mem_filter.mp hs).2
    have ht' := (List.mem_filter.mp ht).2
    rw [heq] at hs'
    simp only [Bool.not_eq_true'] at ht'
    rw [hs'] at ht'
    exact absurd ht' (by simp)
  · by_cases hreq : req = []
    · subst hreq; simp [analyze]
    · simp [analyze, hreq]

/-- The ranked list is sorted under the ranking order, also after
truncation to top-N. -/
theorem rankRecommendations_sorted (l : List RecResult) (topN : ℕ) :
    (rankRecommendations l topN).Sorted rankle :=
  (List.sorted_insertionSort rankle l).sublist
    (List.take_sublist topN (List.insertionSort rankle l))

/-- Claim C3: the returned recommendation list is sorted by
confidence_score descending with ties broken by posting id ascending — for
any two positions a < b the later confidence is no larger and equal
confidences have ids in ascending order (hence all adjacent pairs satisfy
confidence_score[a] ≥ confidence_score[a+1]) — and the ranking is
deterministic: any reordering of the same scored catalog produces the
identical ranked list. -/
theorem C3_ranking (l l' : List RecResult) (topN : ℕ) (hperm : l.Perm l') :
    (∀ a b : Fin (rankRecommendations l topN).length, a < b →
        ((rankRecommendations l topN).get b).confidence_score ≤
          ((rankRecommendations l topN).get a).confidence_score ∧
        (((rankRecommendations l topN).get a).confidence_score =
            ((rankRecommendations l topN).get b).confidence_score →
          ((rankRecommendations l topN).get a).id ≤
            ((rankRecommendations l topN).get b).id)) ∧
    rankRecommendations l topN = rankRecommendations l' topN := by
  constructor
  · intro a b hab
    have hr := (rankRecommendations_sorted l topN).rel_get_of_lt hab
    unfold rankle at hr
    omega
  · unfold rankRecommendations
    have hsort : List.insertionSort rankle l = List.insertionSort rankle l' :=
      List.eq_of_perm_of_sorted
        (((List.perm_insertionSort rankle l).trans hperm).trans
          (List.perm_insertionSort rankle l').symm)
        (List.sorted_insertionSort rankle l)
        (List.sorted_insertionSort rankle l')
    rw [hsort]

/-- Claim C3, witness: a three-element catalog given in two different
orders, with a confidence tie between ids 1 and 2, ranks identically and
in sorted order. -/
theorem C3_ranking_witness :
    (∀ a b : Fin (rankRecommendations [⟨2, 70⟩, ⟨1, 70⟩, ⟨3, 90⟩] 5).length,
        a < b →
        ((rankRecommendations [⟨2, 70⟩, ⟨1, 70⟩, ⟨3, 90⟩] 5).get b).confidence_score ≤
          ((rankRecommendations [⟨2, 70⟩, ⟨1, 70⟩, ⟨3, 90⟩] 5).get a).confidence_score ∧
        (((rankRecommendations [⟨2, 70⟩, ⟨1, 70⟩, ⟨3, 90⟩] 5).get a).confidence_score =
            ((rankRecommendations [⟨2, 70⟩, ⟨1, 70⟩, ⟨3, 90⟩] 5).get b).confidence_score →
          ((rankRecommendations [⟨2, 70⟩, ⟨1, 70⟩, ⟨3, 90⟩] 5).get a).id ≤
            ((rankRecommendations [⟨2, 70⟩, ⟨1, 70⟩, ⟨3, 90⟩] 5).get b).id)) ∧
    rankRecommendations [⟨2, 70⟩, ⟨1, 70⟩, ⟨3, 90⟩] 5 =
      rankRecommendations [⟨1, 70⟩, ⟨3, 90⟩, ⟨2, 70⟩] 5 :=
  C3_ranking [⟨2, 70⟩, ⟨1, 70⟩, ⟨3, 90⟩] [⟨1, 70⟩, ⟨3, 90⟩, ⟨2, 70⟩] 5
    (by decide)

/-- A dot product of vectors with nonnegative entries is nonnegative. -/
theorem dotQ_nonneg (n : ℕ) (q p : Fin n → ℚ) (hq : ∀ i, 0 ≤ q i)
    (hp : ∀ i, 0 ≤ p i) : 0 ≤ dotQ n q p :=
  Finset.sum_nonneg fun i _ => mul_nonneg (hq i) (hp i)

/-- Cauchy–Schwarz: the dot product of nonnegative vectors of squared norm
at most one is at most one. -/
theorem dotQ_le_one (n : ℕ) (q p : Fin n → ℚ) (hq : ∀ i, 0 ≤ q i)
    (hp : ∀ i, 0 ≤ p i) (hqn : sumSq n q ≤ 1) (hpn : sumSq n p ≤ 1) :
    dotQ n q p ≤ 1 := by
  have hcs := Finset.sum_mul_sq_le_sq_mul_sq Finset.univ q p
  have h0 : 0 ≤ dotQ n q p := dotQ_nonneg n q p hq hp
  have hq0 : (0 : ℚ) ≤ sumSq n q :=
    Finset.sum_nonneg fun i _ => sq_nonneg (q i)
  have hp0 : (0 : ℚ) ≤ sumSq n p :=
    Finset.sum_nonneg fun i _ => sq_nonneg (p i)
  unfold dotQ sumSq at *
  nlinarith [hcs, h0, hq0, hp0, hqn, hpn]

/-- The composite score lies in the unit interval. -/
theorem compositeScore_mem_unit (b : ScoreBreakdown) :
    0 ≤ compositeScore b ∧ compositeScore b ≤ 1 :=
  ⟨le_max_left 0 _, max_le zero_le_one (min_le_left 1 _)⟩

/-- Claim C1: for every candidate query vector, posting vector and score
breakdown, the similarity lies in [0,1] — the vectors are TF-IDF vectors,
so their entries are nonnegative and their squared L2 norm is at most 1 —
and confidence_score equals round(composite × 100), an integer between 0
and 100, where the composite score is the weighted sum of the four
breakdown components clamped to [0,1]. -/
theorem C1_similarity_and_confidence (n : ℕ) (q p : Fin n → ℚ)
    (b : ScoreBreakdown) (hq : ∀ i, 0 ≤ q i) (hp : ∀ i, 0 ≤ p i)
    (hqn : sumSq n q ≤ 1) (hpn : sumSq n p ≤ 1) :
    (0 ≤ cosineSimilarity n q p ∧ cosineSimilarity n q p ≤ 1) ∧
    confidenceScore b = round (compositeScore b * 100) ∧
    (0 : ℤ) ≤ confidenceScore b ∧ confidenceScore b ≤ 100 := by
  refine ⟨?_, rfl, ?_, ?_⟩
  · unfold cosineSimilarity
    split_ifs with h
    · exact ⟨le_refl 0, zero_le_one⟩
    · exact ⟨dotQ_nonneg n q p hq hp, dotQ_le_one n q p hq hp hqn hpn⟩
  · have h1 : 0 ≤ compositeScore b := (compositeScore_mem_unit b).1
    unfold confidenceScore
    rw [round_eq]
    apply Int.floor_nonneg.mpr
    nlinarith [h1]
  · have h2 : compositeScore b ≤ 1 := (compositeScore_mem_unit b).2
    unfold confidenceScore
    rw [round_eq]
    have : compositeScore b * 100 + 1 / 2 < (101 : ℚ) := by nlinarith [h2]
    have hlt : ⌊compositeScore b * 100 + 1 / 2⌋ < (101 : ℤ) :=
      Int.floor_lt.mpr (by exact_mod_cast this)
    omega

/-- Claim C1, witness: concrete unit vectors and a concrete breakdown
exercise the theorem. -/
theorem C1_similarity_and_confidence_witness :
    (0 ≤ cosineSimilarity 2 ![3/5, 4/5] ![4/5, 3/5] ∧
      cosineSimilarity 2 ![3/5, 4/5] ![4/5, 3/5] ≤ 1) ∧
    confidenceScore ⟨1, 1/2, 0, 1⟩ =
      round (compositeScore ⟨1, 1/2, 0, 1⟩ * 100) ∧
    (0 : ℤ) ≤ confidenceScore ⟨1, 1/2, 0, 1⟩ ∧
    confidenceScore ⟨1, 1/2, 0, 1⟩ ≤ 100 :=
  C1_similarity_and_confidence 2 ![3/5, 4/5] ![4/5, 3/5] ⟨1, 1/2, 0, 1⟩
    (fun i => by fin_cases i <;> norm_num)
    (fun i => by fin_cases i <;> norm_num)
    (by norm_num [sumSq, Fin.sum_univ_two])
    (by norm_num [sumSq, Fin.sum_univ_two])

end SIH
